import Mathlib

/-!
Verification development for the stage0_search_api synchronization engine.

The Python sources under src/ are shallowly embedded below:

* timestamps (Python datetime values) are modelled as natural numbers,
  with 0 standing for the epoch sentinel datetime(1970, 1, 1);
* the MongoDB source collection is a list of documents, and the cursor
  returned by collection.find is the filtered list;
* the Elasticsearch client is abstracted: the bulk endpoint is a function
  argument returning Except (an exception or a per-item status response),
  and the keyed document store is an association list;
* Python functions that may raise are embedded as Except-valued functions,
  and the unbounded while loop of the sync service is instrumented with
  explicit fuel so that non-termination is expressible as returning none
  for every fuel value.
-/

namespace Stage0Search

/-- Timestamps: Python datetime values modelled as naturals; 0 is the epoch
sentinel datetime(1970, 1, 1) used as the beginning-of-time watermark. -/
abbrev Timestamp := Nat

/-- The beginning-of-time sentinel returned by
SyncServices._get_latest_sync_time when no sync history exists
(source/services/sync_services.py line 274: datetime(1970, 1, 1)). -/
def beginningOfTime : Timestamp := 0

/-- The last_saved subdocument of a source document.  The repository uses two
key spellings: the Mongo query filter reads last_saved.atTime
(src/utils/mongo_utils.py line 35) while the source-variant transformer reads
last_saved.at_time (source/utils/mongo_utils.py line 69); both are carried. -/
structure LastSaved where
  atTime : Option Timestamp := none
  at_time : Option String := none
  deriving DecidableEq, Repr

/-- A MongoDB source document as far as the sync engine inspects it:
str(_id) and the optional last_saved subdocument.  An absent or falsy
last_saved value is modelled as none. -/
structure SourceDoc where
  idStr : String
  last_saved : Option LastSaved := none
  deriving DecidableEq, Repr

/-- Embedding of MongoUtils.get_documents_since
(src/utils/mongo_utils.py lines 27-45).  The Python code builds
filter_query = \x7b"last_saved.atTime": \x7b"$gt": since_time\x7d\x7d only when
since_time is truthy; None is falsy while every datetime value, the epoch
included, is truthy.  Mongo $gt matches only documents where the dotted field
is present and strictly greater, so a document with no last_saved.atTime never
matches the filtered query. -/
def get_documents_since (coll : List SourceDoc) (since : Option Timestamp) :
    List SourceDoc :=
  match since with
  | none => coll
  | some s =>
      coll.filter fun d =>
        match d.last_saved with
        | some ls =>
            match ls.atTime with
            | some t => decide (s < t)
            | none => false
        | none => false

/-- An index card, the transformed record written to the search index
(source/utils/mongo_utils.py lines 54-81).  payload is the nested copy of the
source document stored under the collection-name key. -/
structure IndexCard where
  collection_id : String
  collection_name : String
  last_saved : String
  payload : SourceDoc
  deriving DecidableEq, Repr

/-- Embedding of MongoUtils.create_index_card
(source/utils/mongo_utils.py lines 54-81).  The wall-clock reads
datetime.now().isoformat() performed by the Python code are made explicit as
the argument now: when the document has no truthy last_saved subdocument, or
its at_time entry is missing, the card gets the current wall-clock string. -/
def create_index_card (collection_name : String) (document : SourceDoc)
    (now : String) : IndexCard :=
  { collection_id := document.idStr
    collection_name := collection_name
    last_saved :=
      match document.last_saved with
      | some ls =>
          match ls.at_time with
          | some t => t
          | none => now
      | none => now
    payload := document }

/-- Embedding of MongoUtils.process_collection_batch
(src/utils/mongo_utils.py lines 103-123): re-issue the since query, take the
first batch_size documents of the fresh cursor, convert each to an index card.
The card builder is abstracted as to_card (the code filters out falsy cards;
the embedded builders are total, so no card is dropped). -/
def process_collection_batch (to_card : SourceDoc → IndexCard)
    (coll : List SourceDoc) (since : Option Timestamp) (batch_size : Nat) :
    List IndexCard :=
  ((get_documents_since coll since).take batch_size).map to_card

/-- A Python exception value. -/
inductive PyExc where
  | exc (msg : String)
  deriving DecidableEq, Repr

/-- One operation of an Elasticsearch bulk request body: target index, the
document identifier, and the document (elastic_utils.py lines 170-174). -/
structure BulkOp where
  index_name : String
  id : String
  doc : IndexCard
  deriving DecidableEq, Repr

/-- The Elasticsearch bulk response as inspected by the code: the per-item
HTTP status of each operation (elastic_utils.py line 180). -/
structure BulkResponse where
  items : List Nat
  deriving DecidableEq, Repr

/-- The success and failed tallies returned by bulk_upsert_documents. -/
structure SuccessFailed where
  success : Nat
  failed : Nat
  deriving DecidableEq, Repr

/-- The bulk operations built by ElasticUtils.bulk_upsert_documents
(source/utils/elastic_utils.py lines 170-174): each document is addressed by
_id = doc.get("collection_id"). -/
def mk_bulk_operations (search_index : String) (documents : List IndexCard) :
    List BulkOp :=
  documents.map fun doc =>
    { index_name := search_index, id := doc.collection_id, doc := doc }

/-- Embedding of ElasticUtils.bulk_upsert_documents
(source/utils/elastic_utils.py lines 163-196).  The Elasticsearch client bulk
endpoint is the argument bulk; a raised transport error is its Except.error
result.  On a response, success counts per-item statuses in 200 or 201 and
failed is the remaining item count; on a whole-batch error the function
returns success 0 and failed equal to the batch length; an empty batch
returns 0 and 0 before the client is consulted. -/
def bulk_upsert_documents (bulk : List BulkOp → Except PyExc BulkResponse)
    (search_index : String) (documents : List IndexCard) : SuccessFailed :=
  if documents.isEmpty then { success := 0, failed := 0 }
  else
    match bulk (mk_bulk_operations search_index documents) with
    | .ok response =>
        let success_count :=
          response.items.countP fun status => status == 200 || status == 201
        { success := success_count
          failed := response.items.length - success_count }
    | .error _ => { success := 0, failed := documents.length }

/-- Lookup in the modelled Elasticsearch index: first entry at the key. -/
def es_lookup (index : List (String × IndexCard)) (id : String) :
    Option IndexCard :=
  match index with
  | [] => none
  | e :: rest => if e.1 = id then some e.2 else es_lookup rest id

/-- Modelled from the spec: the search-index engine is an external
collaborator (spec section 6, "bulkUpsert(id, document)* -> per-item status";
section 3, IndexCards are idempotently upsertable, re-indexing the same
collection_id overwrites rather than duplicates).  The primary index is an
association list from document identifier to document, and one index
operation replaces the entry at its identifier or appends a fresh entry. -/
def es_index_doc (index : List (String × IndexCard)) (id : String)
    (doc : IndexCard) : List (String × IndexCard) :=
  if (es_lookup index id).isSome then
    index.map fun entry => if entry.1 = id then (id, doc) else entry
  else
    index ++ [(id, doc)]

/-- Applying a whole bulk request to the modelled index: operations are
applied in order, each keyed by its _id. -/
def apply_bulk_ops (index : List (String × IndexCard)) (ops : List BulkOp) :
    List (String × IndexCard) :=
  ops.foldl (fun ix op => es_index_doc ix op.id op.doc) index

/-- Indexing a sequence of batches the way the sync services submit them:
each batch is sent through mk_bulk_operations and applied to the index. -/
def apply_batches (search_index : String) (index : List (String × IndexCard))
    (batches : List (List IndexCard)) : List (String × IndexCard) :=
  batches.foldl (fun ix docs => apply_bulk_ops ix (mk_bulk_operations search_index docs)) index

/-- The per-collection record assembled by SyncServices._sync_single_collection
(source/services/sync_services.py lines 331-335). -/
structure CollectionResult where
  name : String
  count : Nat
  end_time : Timestamp
  deriving DecidableEq, Repr

/-- The body of the while True loop of SyncServices._sync_single_collection
(src/services/sync_services.py lines 203-224, same shape at
source/services/sync_services.py lines 299-329).  Each iteration re-issues
the read with the unchanged collection and since_time arguments against an
unmodified source collection, so every iteration reads the same list
read_batch; the loop keeps batch_count and total_synced and stops when the
read is empty or shorter than batch_size.  fuel bounds the number of
iterations: none means the loop was still running when fuel ran out. -/
def sync_single_collection_loop (batch_size : Nat) (read_batch : List IndexCard)
    (upsert : List IndexCard → SuccessFailed) :
    Nat → Nat → Nat → Option (Nat × Nat)
  | 0, _, _ => none
  | fuel + 1, batch_count, total_synced =>
      let index_cards := read_batch
      if index_cards.isEmpty then some (total_synced, batch_count)
      else
        let result := upsert index_cards
        let total := total_synced + result.success
        let bc := batch_count + 1
        if index_cards.length < batch_size then some (total, bc)
        else sync_single_collection_loop batch_size read_batch upsert fuel bc total

/-- Embedding of SyncServices._sync_single_collection
(src/services/sync_services.py lines 183-230).  Returns the collection result
together with the final value of the internal batch_count counter, or none if
the loop did not terminate within fuel iterations. -/
def sync_single_collection (fuel : Nat) (to_card : SourceDoc → IndexCard)
    (coll : List SourceDoc) (since : Option Timestamp) (batch_size : Nat)
    (upsert : List IndexCard → SuccessFailed) (collection_name : String)
    (end_time : Timestamp) : Option (CollectionResult × Nat) :=
  match sync_single_collection_loop batch_size
      (process_collection_batch to_card coll since batch_size) upsert fuel 0 0 with
  | none => none
  | some (total, bc) =>
      some ({ name := collection_name, count := total, end_time := end_time }, bc)

/-- One SyncRun record as stored in the sync-history index
(source/utils/elastic_utils.py lines 198-218). -/
structure SyncRun where
  id : String
  started_at : Timestamp
  collections : List CollectionResult
  deriving DecidableEq, Repr

/-- Embedding of ElasticUtils.save_sync_history: a new run record is written
to the sync index; run ids are fresh uuids, so the write appends. -/
def save_sync_history (run : SyncRun) (hist : List SyncRun) : List SyncRun :=
  hist ++ [run]

/-- Newest-first order on sync runs, the sort key started_at desc used by
get_sync_history and get_sync_history_paginated
(source/utils/elastic_utils.py lines 227 and 259). -/
def newer_first (a b : SyncRun) : Prop := b.started_at ≤ a.started_at

instance : DecidableRel newer_first := fun a b => by
  unfold newer_first; infer_instance

instance : IsTotal SyncRun newer_first :=
  ⟨fun a b => (Nat.le_total b.started_at a.started_at).imp id id⟩

instance : IsTrans SyncRun newer_first :=
  ⟨fun _ _ _ h1 h2 => Nat.le_trans h2 h1⟩

/-- Embedding of ElasticUtils.get_sync_history
(source/utils/elastic_utils.py lines 220-236): search the sync index sorted
by started_at descending, take limit hits; any exception is caught and the
empty list returned.  The fallible Elasticsearch read is the argument
backend. -/
def get_sync_history (backend : Except PyExc (List SyncRun)) (limit : Nat) :
    List SyncRun :=
  match backend with
  | .ok hist => (List.insertionSort newer_first hist).take limit
  | .error _ => []

/-- Embedding of ElasticUtils.get_latest_sync_time
(source/utils/elastic_utils.py lines 271-281): read the single most recent
history entry and return its started_at, or None when the history is empty;
its own try block catches any exception and returns None (timestamp parsing,
fallible in Python, is total here). -/
def get_latest_sync_time (backend : Except PyExc (List SyncRun)) :
    Option Timestamp :=
  match get_sync_history backend 1 with
  | [] => none
  | r :: _ => some r.started_at

/-- Embedding of SyncServices._get_latest_sync_time
(source/services/sync_services.py lines 269-275): substitute the
beginning-of-time sentinel when no latest sync time exists. -/
def services_get_latest_sync_time (backend : Except PyExc (List SyncRun)) :
    Timestamp :=
  match get_latest_sync_time backend with
  | none => beginningOfTime
  | some t => t

/-- Sequencing the per-collection syncs of sync_all_collections
(source/services/sync_services.py lines 69-75): the first raised exception
aborts the whole run. -/
def map_except_all (f : String → Except PyExc CollectionResult) :
    List String → Except PyExc (List CollectionResult)
  | [] => .ok []
  | name :: rest =>
      match f name with
      | .error e => .error e
      | .ok r =>
          match map_except_all f rest with
          | .error e => .error e
          | .ok rs => .ok (r :: rs)

/-- The summary dictionary returned to the caller
(source/services/sync_services.py lines 343-356, breadcrumb omitted). -/
structure SyncResult where
  id : String
  start_time : Timestamp
  collections : List CollectionResult
  deriving DecidableEq, Repr

/-- Embedding of SyncServices._build_sync_result. -/
def build_sync_result (sync_id : String) (start_time : Timestamp)
    (collection_results : List CollectionResult) : SyncResult :=
  { id := sync_id, start_time := start_time, collections := collection_results }

/-- Embedding of SyncServices.sync_all_collections
(source/services/sync_services.py lines 39-86).  The admin gate raises
SyncError for a token without the admin role; then every collection is
synced in order (sync_one is the fallible _sync_single_collection); only
after all collections succeed is the sync history written.  The sync-history
state is threaded: an exception leaves it untouched. -/
def sync_all_collections (roles : List String)
    (sync_one : String → Except PyExc CollectionResult)
    (collection_names : List String) (sync_id : String)
    (start_time : Timestamp) (hist : List SyncRun) :
    Except PyExc SyncResult × List SyncRun :=
  if roles.contains "admin" = false then
    (.error (.exc "Admin role required for sync operations"), hist)
  else
    match map_except_all sync_one collection_names with
    | .error e => (.error e, hist)
    | .ok results =>
        (.ok (build_sync_result sync_id start_time results),
         save_sync_history
           { id := sync_id, started_at := start_time, collections := results } hist)

/-- Embedding of SyncServices.sync_collection
(source/services/sync_services.py lines 89-127): the same pipeline restricted
to a single collection name. -/
def sync_collection (roles : List String)
    (sync_one : String → Except PyExc CollectionResult)
    (collection_name : String) (sync_id : String) (start_time : Timestamp)
    (hist : List SyncRun) : Except PyExc SyncResult × List SyncRun :=
  if roles.contains "admin" = false then
    (.error (.exc "Admin role required for sync operations"), hist)
  else
    match sync_one collection_name with
    | .error e => (.error e, hist)
    | .ok r =>
        (.ok (build_sync_result sync_id start_time [r]),
         save_sync_history
           { id := sync_id, started_at := start_time, collections := [r] } hist)

/-- The pagination block (source/utils/elastic_utils.py lines 128-137). -/
structure Pagination where
  page : Nat
  page_size : Nat
  total_items : Nat
  total_pages : Nat
  has_next : Bool
  has_previous : Bool
  deriving DecidableEq, Repr

/-- The pagination block computed by search_documents_paginated
(source/utils/elastic_utils.py lines 122-137): ceiling division by
(total + page_size - 1) / page_size, has_next iff page < total_pages,
has_previous iff page > 1. -/
def mk_pagination (page page_size total_items : Nat) : Pagination :=
  { page := page
    page_size := page_size
    total_items := total_items
    total_pages := (total_items + page_size - 1) / page_size
    has_next := decide (page < (total_items + page_size - 1) / page_size)
    has_previous := decide (1 < page) }

/-- A paginated envelope: items plus the pagination block. -/
structure Paged (α : Type) where
  items : List α
  pagination : Pagination
  deriving DecidableEq, Repr

/-- Embedding of ElasticUtils.search_documents_paginated
(source/utils/elastic_utils.py lines 87-142).  The external search engine is
modelled from the spec (section 6: search(query, from, size) returns hits
plus total): the matching hits are the list hits, the engine serves the
window starting at from of length size, and total is the full match count.
The wrapper passes from = (page - 1) * page_size and size = page_size and
assembles the envelope. -/
def search_documents_paginated {α : Type} (hits : List α)
    (page page_size : Nat) : Paged α :=
  { items := (hits.drop ((page - 1) * page_size)).take page_size
    pagination := mk_pagination page page_size hits.length }

/-- Embedding of ElasticUtils.get_sync_history_paginated
(source/utils/elastic_utils.py lines 252-269): the sync index sorted by
started_at descending, window at offset of length size. -/
def get_sync_history_paginated (hist : List SyncRun) (offset size : Nat) :
    List SyncRun :=
  ((List.insertionSort newer_first hist).drop offset).take size

/-- Modelled from the spec: the paginated sync-history service.  The
SyncServices.get_sync_history(page, page_size) envelope builder invoked by
sync_routes.py and by tests/services/test_sync_services.py is not present
under src (the src service takes a flat limit); spec section 4.5 gives the
contract: page(pageNumber, pageSize) returns items plus the same pagination
block as section 4.6, items sorted newest-first by start time.  It is built
from the embedded get_sync_history_count (the index size) and
get_sync_history_paginated. -/
def get_sync_history_page (hist : List SyncRun) (page page_size : Nat) :
    Paged SyncRun :=
  { items := get_sync_history_paginated hist ((page - 1) * page_size) page_size
    pagination := mk_pagination page page_size hist.length }

/-- The least-n characterization of ceiling division: n is the least number
of pages of size page_size that cover total_items. -/
def is_ceil_div (total_items page_size n : Nat) : Prop :=
  total_items ≤ n * page_size ∧ ∀ m, total_items ≤ m * page_size → n ≤ m

/-! Helper lemmas. -/

/-- Membership in the filtered since query: the document is in the collection
and carries a last_saved.atTime strictly greater than since. -/
theorem mem_get_documents_since_some (coll : List SourceDoc) (s : Timestamp)
    (d : SourceDoc) :
    d ∈ get_documents_since coll (some s) ↔
      d ∈ coll ∧ ∃ ls, d.last_saved = some ls ∧ ∃ t, ls.atTime = some t ∧ s < t := by
  unfold get_documents_since
  rw [List.mem_filter]
  refine and_congr_right fun _ => ?_
  cases hls : d.last_saved with
  | none => simp [hls]
  | some ls =>
      cases ht : ls.atTime with
      | none => simp [hls, ht]
      | some t => simp [hls, ht]

/-- The expression (t + ps - 1) / ps used for total_pages is the true ceiling
of t / ps: the least page count covering t items. -/
theorem ceil_div_is_ceil (t ps : Nat) (h : 1 ≤ ps) :
    is_ceil_div t ps ((t + ps - 1) / ps) := by
  have hps : 0 < ps := h
  constructor
  · have h1 := (Nat.div_le_iff_le_mul_add_pred hps
      (a := t + ps - 1)).mp (Nat.le_refl ((t + ps - 1) / ps))
    rw [Nat.mul_comm]
    omega
  · intro m hm
    refine (Nat.div_le_iff_le_mul_add_pred hps).mpr ?_
    rw [Nat.mul_comm m ps] at hm
    omega

/-- The length of one processed batch: batch_size capped by the number of
matching documents. -/
theorem process_collection_batch_length (to_card : SourceDoc → IndexCard)
    (coll : List SourceDoc) (since : Option Timestamp) (batch_size : Nat) :
    (process_collection_batch to_card coll since batch_size).length =
      min batch_size (get_documents_since coll since).length := by
  unfold process_collection_batch
  rw [List.length_map, List.length_take]

/-- When the fresh read always returns a full batch, the loop never stops:
for every fuel value and every accumulator state it runs out of fuel. -/
theorem sync_single_collection_loop_full (batch_size : Nat)
    (read_batch : List IndexCard) (upsert : List IndexCard → SuccessFailed)
    (hbs : 1 ≤ batch_size) (hlen : read_batch.length = batch_size) :
    ∀ fuel batch_count total_synced,
      sync_single_collection_loop batch_size read_batch upsert fuel
        batch_count total_synced = none := by
  intro fuel
  induction fuel with
  | zero => intro _ _; rfl
  | succ n ih =>
      intro bc tot
      have hne : read_batch ≠ [] := by
        intro hnil
        rw [hnil] at hlen
        simp at hlen
        omega
      have hempty : read_batch.isEmpty = false := by
        cases read_batch with
        | nil => exact absurd rfl hne
        | cons a l => rfl
      have hlt : ¬ read_batch.length < batch_size := by omega
      simp only [sync_single_collection_loop, hempty, Bool.false_eq_true,
        if_false, hlt, if_neg, ite_false]
      exact ih _ _

/-- Keys of the modelled index are unchanged by an overwrite pass. -/
theorem keys_map_overwrite (index : List (String × IndexCard)) (id : String)
    (doc : IndexCard) :
    (index.map fun entry => if entry.1 = id then (id, doc) else entry).map
        Prod.fst = index.map Prod.fst := by
  rw [List.map_map]
  refine List.map_congr_left fun e _ => ?_
  by_cases he : e.1 = id
  · simp [he]
  · simp [he]

/-- An absent key: es_lookup returning none means the key is not among the
index keys. -/
theorem es_lookup_none_not_mem (index : List (String × IndexCard))
    (id : String) (h : es_lookup index id = none) :
    id ∉ index.map Prod.fst := by
  induction index with
  | nil => simp
  | cons e rest ih =>
      unfold es_lookup at h
      by_cases he : e.1 = id
      · rw [if_pos he] at h
        exact absurd h (by simp)
      · rw [if_neg he] at h
        simp only [List.map_cons, List.mem_cons]
        intro hc
        rcases hc with hc | hc
        · exact he hc.symm
        · exact ih h hc

/-- Nodup keys are preserved by one modelled index operation. -/
theorem es_index_doc_nodup (index : List (String × IndexCard)) (id : String)
    (doc : IndexCard) (hnd : (index.map Prod.fst).Nodup) :
    ((es_index_doc index id doc).map Prod.fst).Nodup := by
  by_cases hl : (es_lookup index id).isSome = true
  · rw [es_index_doc, if_pos hl, keys_map_overwrite]
    exact hnd
  · rw [es_index_doc, if_neg hl, List.map_append]
    refine List.Nodup.append hnd (by simp) ?_
    intro a ha hb
    simp only [List.map_cons, List.map_nil, List.mem_singleton] at hb
    subst hb
    have hnone : es_lookup index a = none :=
      Option.not_isSome_iff_eq_none.mp hl
    exact es_lookup_none_not_mem index a hnone ha

/-- Overwriting a present key: the lookup afterwards finds the new document. -/
theorem es_lookup_overwrite (index : List (String × IndexCard)) (id : String)
    (doc : IndexCard) (h : (es_lookup index id).isSome = true) :
    es_lookup (index.map fun entry => if entry.1 = id then (id, doc) else entry)
        id = some doc := by
  induction index with
  | nil => simp [es_lookup] at h
  | cons e rest ih =>
      by_cases he : e.1 = id
      · simp only [List.map_cons, if_pos he]
        unfold es_lookup
        rw [if_pos rfl]
      · simp only [List.map_cons, if_neg he]
        unfold es_lookup
        rw [if_neg he]
        refine ih ?_
        unfold es_lookup at h
        rwa [if_neg he] at h

/-- Appending a fresh entry: the lookup afterwards finds the new document. -/
theorem es_lookup_append_fresh (index : List (String × IndexCard)) (id : String)
    (doc : IndexCard) (h : es_lookup index id = none) :
    es_lookup (index ++ [(id, doc)]) id = some doc := by
  induction index with
  | nil =>
      simp [es_lookup]
  | cons e rest ih =>
      unfold es_lookup at h
      rw [List.cons_append]
      show (if e.1 = id then some e.2 else es_lookup (rest ++ [(id, doc)]) id)
          = some doc
      by_cases he : e.1 = id
      · rw [if_pos he] at h
        exact absurd h (by simp)
      · rw [if_neg he] at h
        rw [if_neg he]
        exact ih h

/-- One modelled index operation always leaves the new document at its key. -/
theorem es_index_doc_lookup (index : List (String × IndexCard)) (id : String)
    (doc : IndexCard) :
    es_lookup (es_index_doc index id doc) id = some doc := by
  by_cases hl : (es_lookup index id).isSome = true
  · rw [es_index_doc, if_pos hl]
    exact es_lookup_overwrite index id doc hl
  · rw [es_index_doc, if_neg hl]
    exact es_lookup_append_fresh index id doc (Option.not_isSome_iff_eq_none.mp hl)

/-- Re-indexing a present key does not grow the index. -/
theorem es_index_doc_length_present (index : List (String × IndexCard))
    (id : String) (doc : IndexCard) (h : (es_lookup index id).isSome = true) :
    (es_index_doc index id doc).length = index.length := by
  rw [es_index_doc, if_pos h, List.length_map]

/-- Nodup keys are preserved by a whole bulk request. -/
theorem apply_bulk_ops_nodup (ops : List BulkOp) :
    ∀ index : List (String × IndexCard), (index.map Prod.fst).Nodup →
      ((apply_bulk_ops index ops).map Prod.fst).Nodup := by
  induction ops with
  | nil => intro index h; exact h
  | cons op rest ih =>
      intro index h
      exact ih (es_index_doc index op.id op.doc) (es_index_doc_nodup _ _ _ h)

/-- Nodup keys are preserved across every sequence of upserted batches. -/
theorem apply_batches_nodup (search_index : String)
    (batches : List (List IndexCard)) :
    ∀ index : List (String × IndexCard), (index.map Prod.fst).Nodup →
      ((apply_batches search_index index batches).map Prod.fst).Nodup := by
  induction batches with
  | nil => intro index h; exact h
  | cons docs rest ih =>
      intro index h
      exact ih _ (apply_bulk_ops_nodup _ _ h)

/-! Claim theorems. -/

/-- C10: when the Elasticsearch read behind the sync history fails with any
exception, get_sync_history returns the empty list, get_latest_sync_time
returns none instead of raising, and the orchestrator substitutes the
beginning-of-time sentinel, the same watermark computed for an empty history
store, so the run proceeds as a full re-sync rather than aborting. -/
theorem c10_transport_error_full_resync (e : PyExc) (limit : Nat) :
    get_sync_history (.error e) limit = [] ∧
    get_latest_sync_time (.error e) = none ∧
    services_get_latest_sync_time (.error e) = beginningOfTime ∧
    services_get_latest_sync_time (.error e) =
      services_get_latest_sync_time (.ok []) :=
  ⟨rfl, rfl, rfl, rfl⟩

/-- C8 counterexample: the claim promises all documents of the collection
when since is the epoch; the code treats the epoch like any other timestamp
(only None is falsy), so a document whose last_saved.atTime equals the epoch
is filtered out and the returned list is not the whole collection. -/
theorem c8_counterexample :
    get_documents_since
        [{ idStr := "doc-e", last_saved := some { atTime := some beginningOfTime } }]
        (some beginningOfTime) = [] ∧
    [({ idStr := "doc-e", last_saved := some { atTime := some beginningOfTime } } :
        SourceDoc)] ≠ [] := by
  exact ⟨rfl, by simp⟩

/-- C8 amended: get_documents_since returns all documents when since is nil;
for every non-nil since value, the epoch included, it returns exactly the
documents whose last_saved.atTime is present and strictly greater than
since. -/
theorem c8_filter_semantics (coll : List SourceDoc) (s : Timestamp) :
    get_documents_since coll none = coll ∧
    ∀ d, d ∈ get_documents_since coll (some s) ↔
      d ∈ coll ∧ ∃ ls, d.last_saved = some ls ∧ ∃ t, ls.atTime = some t ∧ s < t :=
  ⟨rfl, fun d => mem_get_documents_since_some coll s d⟩

/-- C3 counterexample: with an empty history store the computed watermark is
the epoch sentinel, yet the resulting sync is not a full sync in which every
document is considered: a document with no last_saved timestamp is excluded
by the source-reader filter once the sentinel is passed as since. -/
theorem c3_counterexample :
    services_get_latest_sync_time (.ok []) = beginningOfTime ∧
    get_documents_since [{ idStr := "doc-1" }]
        (some (services_get_latest_sync_time (.ok []))) = [] ∧
    [({ idStr := "doc-1" } : SourceDoc)] ≠ [] := by
  exact ⟨rfl, rfl, by simp⟩

/-- C3 amended: with an empty history store get_latest_sync_time is none and
the orchestrator substitutes the beginning-of-time sentinel; the resulting
first sync considers exactly the documents whose last_saved.atTime is present
and strictly after the sentinel, not literally every document; and after one
successful run recorded from the empty store, the next computed watermark
equals the started_at of that run. -/
theorem c3_watermark (run : SyncRun) (coll : List SourceDoc) :
    get_latest_sync_time (.ok []) = none ∧
    services_get_latest_sync_time (.ok []) = beginningOfTime ∧
    (∀ d, d ∈ get_documents_since coll (some beginningOfTime) ↔
        d ∈ coll ∧ ∃ ls, d.last_saved = some ls ∧
          ∃ t, ls.atTime = some t ∧ beginningOfTime < t) ∧
    services_get_latest_sync_time (.ok (save_sync_history run [])) =
      run.started_at := by
  refine ⟨rfl, rfl, fun d => mem_get_documents_since_some coll beginningOfTime d, ?_⟩
  rfl

/-- C9 counterexample: create_index_card is not independent of the wall
clock: for a document lacking a last_saved value, two calls at different
wall-clock times yield different cards. -/
theorem c9_counterexample :
    create_index_card "bots" { idStr := "doc-9" } "2024-01-01T00:00:00" ≠
      create_index_card "bots" { idStr := "doc-9" } "2024-01-02T00:00:00" := by
  intro h
  have h2 := congrArg IndexCard.last_saved h
  simp [create_index_card] at h2

/-- C9 amended: create_index_card is pure given the wall-clock reading, and
for every document that carries an explicit last_saved.at_time value the
produced card does not depend on the wall clock at all; only a document
lacking that value receives the current time as its last_saved. -/
theorem c9_determinism (collection_name : String) (document : SourceDoc)
    (ls : LastSaved) (t : String) (h1 : document.last_saved = some ls)
    (h2 : ls.at_time = some t) (now1 now2 : String) :
    create_index_card collection_name document now1 =
      create_index_card collection_name document now2 := by
  simp only [create_index_card, h1, h2]

/-- C9 witness: a document carrying an explicit last_saved.at_time gets the
same card at two different wall-clock readings. -/
theorem c9_determinism_witness :
    create_index_card "bots"
        { idStr := "doc-9w", last_saved := some { at_time := some "2023-05-05" } }
        "2024-01-01T00:00:00" =
      create_index_card "bots"
        { idStr := "doc-9w", last_saved := some { at_time := some "2023-05-05" } }
        "2024-01-02T00:00:00" :=
  c9_determinism "bots" _ { at_time := some "2023-05-05" } "2023-05-05" rfl rfl
    "2024-01-01T00:00:00" "2024-01-02T00:00:00"

/-- C4: bulk_upsert_documents never propagates a whole-batch transport
error: when the client bulk call raises, it returns success 0 and failed
equal to the batch length; and an empty batch returns success 0 and failed 0
under every client whatsoever, the index never being consulted. -/
theorem c4_bulk_transport_error (bulk : List BulkOp → Except PyExc BulkResponse)
    (search_index : String) (documents : List IndexCard) (e : PyExc)
    (h : bulk (mk_bulk_operations search_index documents) = .error e) :
    bulk_upsert_documents bulk search_index documents =
      { success := 0, failed := documents.length } ∧
    ∀ (bulk2 : List BulkOp → Except PyExc BulkResponse) (ix2 : String),
      bulk_upsert_documents bulk2 ix2 [] = { success := 0, failed := 0 } := by
  constructor
  · unfold bulk_upsert_documents
    by_cases hd : documents.isEmpty = true
    · have : documents = [] := List.isEmpty_iff.mp hd
      subst this
      rw [if_pos hd]
      rfl
    · rw [if_neg hd, h]
  · intro bulk2 ix2
    rfl

/-- C4 witness: a connection-refused bulk client on a one-card batch, and the
empty batch under the same failing client. -/
theorem c4_bulk_transport_error_witness :
    bulk_upsert_documents (fun _ => .error (.exc "connection refused")) "search"
        [create_index_card "bots" { idStr := "doc-4" } "t0"] =
      { success := 0, failed := 1 } ∧
    bulk_upsert_documents (fun _ => .error (.exc "connection refused")) "search"
        [] = { success := 0, failed := 0 } := by
  have h := c4_bulk_transport_error (fun _ => .error (.exc "connection refused"))
    "search" [create_index_card "bots" { idStr := "doc-4" } "t0"]
    (.exc "connection refused") rfl
  exact ⟨h.1, h.2 _ "search"⟩

/-- C1 (code bug): _sync_single_collection re-creates the Mongo query on
every loop iteration against the unchanged collection, so every read returns
the same first batch of the matching set.  When exactly k * batch_size
documents match, k at least 1, every read returns exactly batch_size
documents, the fewer-than-batch_size stop condition never fires, and the
loop never terminates whatever the fuel, instead of performing k read-batches
and stopping.  When fewer than batch_size but more than zero documents match,
the single read is under-full and the loop does stop after read-batch one. -/
theorem c1_sync_loop_diverges (to_card : SourceDoc → IndexCard)
    (coll : List SourceDoc) (since : Option Timestamp)
    (batch_size k : Nat) (upsert : List IndexCard → SuccessFailed)
    (collection_name : String) (end_time : Timestamp)
    (hk : 1 ≤ k) (hbs : 1 ≤ batch_size)
    (hN : (get_documents_since coll since).length = k * batch_size) :
    (∀ fuel, sync_single_collection fuel to_card coll since batch_size upsert
        collection_name end_time = none) ∧
    (∀ (coll2 : List SourceDoc) (fuel : Nat),
        0 < (get_documents_since coll2 since).length →
        (get_documents_since coll2 since).length < batch_size →
        sync_single_collection (fuel + 1) to_card coll2 since batch_size upsert
            collection_name end_time =
          some ({ name := collection_name,
                  count := (upsert (process_collection_batch to_card coll2
                    since batch_size)).success,
                  end_time := end_time }, 1)) := by
  constructor
  · intro fuel
    have hle : batch_size ≤ k * batch_size := by
      calc batch_size = 1 * batch_size := (Nat.one_mul _).symm
        _ ≤ k * batch_size := Nat.mul_le_mul_right _ hk
    have hfull : (process_collection_batch to_card coll since batch_size).length
        = batch_size := by
      rw [process_collection_batch_length, hN]
      exact Nat.min_eq_left hle
    unfold sync_single_collection
    rw [sync_single_collection_loop_full batch_size _ upsert hbs hfull fuel 0 0]
  · intro coll2 fuel h0 hlt
    have hclen : (process_collection_batch to_card coll2 since batch_size).length
        = (get_documents_since coll2 since).length := by
      rw [process_collection_batch_length]
      exact Nat.min_eq_right (Nat.le_of_lt hlt)
    have hne : (process_collection_batch to_card coll2 since batch_size) ≠ [] := by
      intro hnil
      rw [hnil] at hclen
      simp at hclen
      omega
    have hempty : (process_collection_batch to_card coll2 since batch_size).isEmpty
        = false := by
      cases hc : process_collection_batch to_card coll2 since batch_size with
      | nil => exact absurd hc hne
      | cons a l => rfl
    have hstop : (process_collection_batch to_card coll2 since batch_size).length
        < batch_size := by omega
    unfold sync_single_collection
    simp only [sync_single_collection_loop, hempty, Bool.false_eq_true, if_false,
      if_pos hstop]
    simp

/-- C1 witness: batch size 2 over a collection with exactly two matching
documents (k is 1): the loop exhausts any amount of fuel. -/
theorem c1_sync_loop_diverges_witness :
    sync_single_collection 1000 (fun d => create_index_card "bots" d "t0")
        [{ idStr := "a" }, { idStr := "b" }] none 2
        (fun _ => { success := 2, failed := 0 }) "bots" 7 = none :=
  (c1_sync_loop_diverges (fun d => create_index_card "bots" d "t0")
    [{ idStr := "a" }, { idStr := "b" }] none 2 1
    (fun _ => { success := 2, failed := 0 }) "bots" 7
    (by decide) (by decide) rfl).1 1000

/-- C2: with an authorized caller, whenever the per-collection pipeline
raises on any collection, both sync entry points propagate that very error
and leave the sync history, hence the watermark of the next run, exactly as
it was; and every successful return carries the complete run summary, the
history gaining exactly that one run record. -/
theorem c2_failure_atomicity (roles : List String)
    (sync_one : String → Except PyExc CollectionResult)
    (collection_names : List String) (name sync_id : String)
    (start_time : Timestamp) (hist : List SyncRun) (e : PyExc)
    (hadmin : roles.contains "admin" = true) :
    (map_except_all sync_one collection_names = .error e →
      sync_all_collections roles sync_one collection_names sync_id start_time
          hist = (.error e, hist) ∧
      services_get_latest_sync_time (.ok (sync_all_collections roles sync_one
          collection_names sync_id start_time hist).2) =
        services_get_latest_sync_time (.ok hist)) ∧
    (sync_one name = .error e →
      sync_collection roles sync_one name sync_id start_time hist =
        (.error e, hist)) ∧
    (∀ out hist2,
      sync_all_collections roles sync_one collection_names sync_id start_time
          hist = (.ok out, hist2) →
      ∃ results, map_except_all sync_one collection_names = .ok results ∧
        out = build_sync_result sync_id start_time results ∧
        hist2 = save_sync_history
          { id := sync_id, started_at := start_time, collections := results }
          hist) ∧
    (∀ out hist2,
      sync_collection roles sync_one name sync_id start_time hist =
          (.ok out, hist2) →
      ∃ r, sync_one name = .ok r ∧
        out = build_sync_result sync_id start_time [r] ∧
        hist2 = save_sync_history
          { id := sync_id, started_at := start_time, collections := [r] }
          hist) := by
  have hcond : ¬ (roles.contains "admin" = false) := fun hf => by
    rw [hadmin] at hf
    cases hf
  refine ⟨?_, ?_, ?_, ?_⟩
  · intro herr
    unfold sync_all_collections
    rw [if_neg hcond, herr]
    exact ⟨rfl, rfl⟩
  · intro herr
    unfold sync_collection
    rw [if_neg hcond, herr]
  · intro out hist2 hok
    unfold sync_all_collections at hok
    rw [if_neg hcond] at hok
    cases hm : map_except_all sync_one collection_names with
    | error e2 => rw [hm] at hok; simp at hok
    | ok results =>
        rw [hm] at hok
        simp only [Prod.mk.injEq, Except.ok.injEq] at hok
        exact ⟨results, rfl, hok.1.symm, hok.2.symm⟩
  · intro out hist2 hok
    unfold sync_collection at hok
    rw [if_neg hcond] at hok
    cases hm : sync_one name with
    | error e2 => rw [hm] at hok; simp at hok
    | ok r =>
        rw [hm] at hok
        simp only [Prod.mk.injEq, Except.ok.injEq] at hok
        exact ⟨r, rfl, hok.1.symm, hok.2.symm⟩

/-- C2 witness: a pipeline raising on the only configured collection, under
an admin token, over a nonempty prior history. -/
theorem c2_failure_atomicity_witness :
    sync_all_collections ["admin"] (fun _ => .error (.exc "boom")) ["bots"]
        "s1" 5 [{ id := "s0", started_at := 3, collections := [] }] =
      (.error (.exc "boom"), [{ id := "s0", started_at := 3, collections := [] }]) ∧
    sync_collection ["admin"] (fun _ => .error (.exc "boom")) "bots" "s1" 5
        [{ id := "s0", started_at := 3, collections := [] }] =
      (.error (.exc "boom"), [{ id := "s0", started_at := 3, collections := [] }]) := by
  have h := c2_failure_atomicity ["admin"] (fun _ => .error (.exc "boom"))
    ["bots"] "bots" "s1" 5 [{ id := "s0", started_at := 3, collections := [] }]
    (.exc "boom") rfl
  exact ⟨(h.1 rfl).1, h.2.1 rfl⟩

/-- C5: a batch whose client response holds some failing per-item statuses
is tallied without raising: success is the number of statuses in 200 or 201
and failed is the remaining item count; and the sync loop, on a full batch
whose upsert reports partial failure, does not abort: it goes on to a further
read, adding only the successes to the running collection count. -/
theorem c5_partial_failure_isolation
    (bulk : List BulkOp → Except PyExc BulkResponse) (search_index : String)
    (documents : List IndexCard) (response : BulkResponse)
    (h : bulk (mk_bulk_operations search_index documents) = .ok response)
    (hne : documents ≠ [])
    (batch_size fuel batch_count total_synced : Nat)
    (cards : List IndexCard) (upsert : List IndexCard → SuccessFailed)
    (hfull : cards.length = batch_size) (hbs : 1 ≤ batch_size) :
    bulk_upsert_documents bulk search_index documents =
      { success := response.items.countP fun s => s == 200 || s == 201
        failed := response.items.length -
          response.items.countP fun s => s == 200 || s == 201 } ∧
    sync_single_collection_loop batch_size cards upsert (fuel + 1) batch_count
        total_synced =
      sync_single_collection_loop batch_size cards upsert fuel (batch_count + 1)
        (total_synced + (upsert cards).success) := by
  constructor
  · have hd : documents.isEmpty = false := by
      cases documents with
      | nil => exact absurd rfl hne
      | cons a l => rfl
    unfold bulk_upsert_documents
    rw [hd, h]
    simp
  · have hempty : cards.isEmpty = false := by
      cases cards with
      | nil => rw [List.length_nil] at hfull; omega
      | cons a l => rfl
    have hlt : ¬ cards.length < batch_size := by omega
    simp only [sync_single_collection_loop, hempty, Bool.false_eq_true, if_false,
      if_neg hlt]

/-- C5 witness: one of five cards fails to upsert, statuses 200, 201, 200,
200, 500: the tally is four successes and one failure, and the loop
continues into the next iteration with only the four successes added. -/
theorem c5_partial_failure_isolation_witness :
    bulk_upsert_documents (fun _ => .ok { items := [200, 201, 200, 200, 500] })
        "search" (List.replicate 5 (create_index_card "bots" { idStr := "c5" } "t0")) =
      { success := 4, failed := 1 } ∧
    sync_single_collection_loop 5
        (List.replicate 5 (create_index_card "bots" { idStr := "c5" } "t0"))
        (fun _ => { success := 4, failed := 1 }) 3 0 0 =
      sync_single_collection_loop 5
        (List.replicate 5 (create_index_card "bots" { idStr := "c5" } "t0"))
        (fun _ => { success := 4, failed := 1 }) 2 1 4 := by
  have h := c5_partial_failure_isolation
    (fun _ => .ok { items := [200, 201, 200, 200, 500] }) "search"
    (List.replicate 5 (create_index_card "bots" { idStr := "c5" } "t0"))
    { items := [200, 201, 200, 200, 500] } rfl (by simp) 5 2 0 0
    (List.replicate 5 (create_index_card "bots" { idStr := "c5" } "t0"))
    (fun _ => { success := 4, failed := 1 }) (by simp) (by decide)
  refine ⟨h.1.trans (by decide), ?_⟩
  exact h.2

/-- C6: each bulk operation built by the code addresses the index by the
collection_id of its card; over every sequence of upserted batches the
modelled keyed index keeps its keys free of duplicates; and re-upserting a
card whose collection_id is already present overwrites: the entry at that
key becomes the new card and the index size does not change. -/
theorem c6_idempotent_upsert (search_index : String)
    (index : List (String × IndexCard))
    (hnd : (index.map Prod.fst).Nodup) (batches : List (List IndexCard)) :
    (∀ (docs : List IndexCard), ∀ op ∈ mk_bulk_operations search_index docs,
        op.id = op.doc.collection_id) ∧
    ((apply_batches search_index index batches).map Prod.fst).Nodup ∧
    (∀ card : IndexCard,
        es_lookup (apply_bulk_ops index (mk_bulk_operations search_index [card]))
            card.collection_id = some card) ∧
    (∀ card : IndexCard, (es_lookup index card.collection_id).isSome = true →
        (apply_bulk_ops index (mk_bulk_operations search_index [card])).length =
          index.length) := by
  refine ⟨?_, apply_batches_nodup search_index batches index hnd, ?_, ?_⟩
  · intro docs op hop
    unfold mk_bulk_operations at hop
    rw [List.mem_map] at hop
    obtain ⟨doc, _, rfl⟩ := hop
    rfl
  · intro card
    exact es_index_doc_lookup index card.collection_id card
  · intro card hpresent
    exact es_index_doc_length_present index card.collection_id card hpresent

/-- C6 witness: from an empty index, upserting a card and then a revised
card with the same collection_id leaves duplicate-free keys, and the revised
upsert overwrites the entry without growing the index. -/
theorem c6_idempotent_upsert_witness :
    ((apply_batches "search" []
        [[create_index_card "bots" { idStr := "x" } "t0"],
         [create_index_card "bots" { idStr := "x" } "t1"]]).map Prod.fst).Nodup ∧
    es_lookup (apply_bulk_ops [] (mk_bulk_operations "search"
        [create_index_card "bots" { idStr := "x" } "t0"]))
        (create_index_card "bots" { idStr := "x" } "t0").collection_id =
      some (create_index_card "bots" { idStr := "x" } "t0") := by
  have h := c6_idempotent_upsert "search" [] (by simp)
    [[create_index_card "bots" { idStr := "x" } "t0"],
     [create_index_card "bots" { idStr := "x" } "t1"]]
  exact ⟨h.2.1, h.2.2.1 _⟩

/-- C7: for every page at least 1 and page size in 1 to 100, the paginated
document search and the paginated sync-history read return an envelope whose
total_pages is the true ceiling of total_items over page_size (the least
page count covering all items), has_next holds exactly when page is below
total_pages, has_previous exactly when page exceeds 1, items is the window
at offset (page - 1) * page_size, and the sync-history items are sorted
newest-first by start time. -/
theorem c7_pagination (α : Type) (hits : List α) (hist : List SyncRun)
    (page page_size : Nat) (_hp : 1 ≤ page) (h1 : 1 ≤ page_size)
    (_h100 : page_size ≤ 100) :
    (search_documents_paginated hits page page_size).items =
      (hits.drop ((page - 1) * page_size)).take page_size ∧
    is_ceil_div hits.length page_size
      (search_documents_paginated hits page page_size).pagination.total_pages ∧
    ((search_documents_paginated hits page page_size).pagination.has_next = true ↔
      page < (search_documents_paginated hits page page_size).pagination.total_pages) ∧
    ((search_documents_paginated hits page page_size).pagination.has_previous = true ↔
      1 < page) ∧
    (search_documents_paginated hits page page_size).pagination.total_items =
      hits.length ∧
    is_ceil_div hist.length page_size
      (get_sync_history_page hist page page_size).pagination.total_pages ∧
    ((get_sync_history_page hist page page_size).pagination.has_next = true ↔
      page < (get_sync_history_page hist page page_size).pagination.total_pages) ∧
    ((get_sync_history_page hist page page_size).pagination.has_previous = true ↔
      1 < page) ∧
    (get_sync_history_page hist page page_size).items =
      ((List.insertionSort newer_first hist).drop ((page - 1) * page_size)).take
        page_size ∧
    List.Sorted newer_first (get_sync_history_page hist page page_size).items := by
  refine ⟨rfl, ceil_div_is_ceil hits.length page_size h1, by simp [search_documents_paginated, mk_pagination],
    by simp [search_documents_paginated, mk_pagination], rfl,
    ceil_div_is_ceil hist.length page_size h1, by simp [get_sync_history_page, mk_pagination],
    by simp [get_sync_history_page, mk_pagination], rfl, ?_⟩
  have hsorted : List.Sorted newer_first (List.insertionSort newer_first hist) :=
    List.sorted_insertionSort newer_first hist
  have hsub : ((get_sync_history_page hist page page_size).items).Sublist
      (List.insertionSort newer_first hist) :=
    (List.take_sublist _ _).trans (List.drop_sublist _ _)
  exact List.Pairwise.sublist hsub hsorted

/-- C7 witness: twenty-five items at page size ten give three pages, and
page four is an empty page with no next page; page one has no previous
page. -/
theorem c7_pagination_witness :
    is_ceil_div 25 10
      (search_documents_paginated (List.range 25) 4 10).pagination.total_pages ∧
    (search_documents_paginated (List.range 25) 4 10).pagination.total_pages = 3 ∧
    (search_documents_paginated (List.range 25) 4 10).items = [] ∧
    (search_documents_paginated (List.range 25) 4 10).pagination.has_next = false ∧
    (search_documents_paginated (List.range 25) 1 10).pagination.has_previous =
      false := by
  have h := c7_pagination Nat (List.range 25) [] 4 10 (by decide) (by decide)
    (by decide)
  have hlen : (List.range 25).length = 25 := by simp
  refine ⟨hlen ▸ h.2.1, by decide, ?_, by decide, by decide⟩
  exact h.1.trans (by decide)
